import Mathlib

/-!
Verification development for the cloudflare-analytics repository (src/main.py).

The Python program is I/O orchestration: paginated REST fetching of zones and
page-shield script records, a single-shot GraphQL fetch of firewall events per
(zone, time window) pair, and CSV serialization.  We embed each routine as a
pure Lean function.  HTTP servers become functions from the request (the page
number, or the GraphQL request value) to a modelled response; `none` / error
constructors model a `requests.exceptions.RequestException` (transport failure
or a non-2xx status surfaced by `raise_for_status`).  Each fetching function
additionally returns the ordered trace of requests it issued, which is the
observable behaviour the specification's pagination claims quantify over.
The unbounded `while True` loops are embedded with an explicit fuel argument;
`none` means the loop did not finish within the given fuel, so every theorem
about a loop's result supplies enough fuel explicitly.
-/

/-- A zone as accumulated by `get_zones`: the projected dict
`{"id": zone["id"], "name": zone["name"]}` (main.py line 36). -/
structure ZoneItem where
  id : String
  name : String
deriving Repr, DecidableEq

/-- A raw zone object of a REST response's `result` array.  The code reads
`zone["id"]` and `zone["name"]`; `extra` stands for any further JSON fields,
which the code never touches. -/
structure ZoneRaw where
  id : String
  name : String
  extra : List (String × String)
deriving Repr, DecidableEq

/-- The projection applied per item on line 36 of main.py. -/
def zoneProj (z : ZoneRaw) : ZoneItem :=
  { id := z.id, name := z.name }

/-- A decoded REST response body, as far as the two paginators read it:
`success` (absent or a boolean), the `result` array, and the
`result_info.page` / `result_info.total_pages` fields (`none` when
`result_info` or the field itself is absent; `data.get("result_info", {})`
followed by `.get(field, 1)` makes absence and a missing field
indistinguishable, which the `Option Nat` fields capture). -/
structure RestPage (α : Type) where
  success : Option Bool
  result : List α
  ri_page : Option Nat
  ri_total_pages : Option Nat
deriving Repr, DecidableEq

/-- The `while True` loop of `CloudflareAPI.get_zones` (main.py lines 29-45),
with explicit fuel.  `server p` is the decoded response to the GET for page
`p`, `none` modelling a `RequestException` (caught: log and break).  The
first component of the returned pair is the ordered list of pages requested;
the second is the accumulated `zones` list.  Note the loop checks
`result_info.get("page", 1) >= result_info.get("total_pages", 1)` — the
response-reported page, not the local counter — and performs no `success`
or empty-page check. -/
def get_zonesLoop (server : Nat → Option (RestPage ZoneRaw)) :
    Nat → Nat → List Nat → List ZoneItem → Option (List Nat × List ZoneItem)
  | 0, _, _, _ => none
  | fuel + 1, page, trace, zones =>
    match server page with
    | none => some (trace ++ [page], zones)
    | some data =>
      let trace := trace ++ [page]
      let zones := zones ++ data.result.map zoneProj
      if data.ri_page.getD 1 ≥ data.ri_total_pages.getD 1 then
        some (trace, zones)
      else
        get_zonesLoop server fuel (page + 1) trace zones

/-- `CloudflareAPI.get_zones` (main.py lines 23-47): start at page 1 with an
empty accumulator. -/
def get_zones (server : Nat → Option (RestPage ZoneRaw)) (fuel : Nat) :
    Option (List Nat × List ZoneItem) :=
  get_zonesLoop server fuel 1 [] []

/-- The `while True` loop of `CloudflareAPI.fetch_page_shield_logs`
(main.py lines 56-83), with explicit fuel.  Per page, in source order:
stop when `data.get("success", False)` is falsy (line 63), stop when the
`result` list is empty (line 68), extend the accumulator (line 72), stop
when the local page counter has reached
`result_info.get("total_pages", 1)` (line 77), else increment and continue.
`none` from the server models a caught `RequestException` (break). -/
def fetch_page_shield_logsLoop {α : Type} (server : Nat → Option (RestPage α)) :
    Nat → Nat → List Nat → List α → Option (List Nat × List α)
  | 0, _, _, _ => none
  | fuel + 1, page, trace, logs =>
    match server page with
    | none => some (trace ++ [page], logs)
    | some data =>
      let trace := trace ++ [page]
      if (data.success.getD false) = false then
        some (trace, logs)
      else if data.result.isEmpty then
        some (trace, logs)
      else
        let logs := logs ++ data.result
        if page ≥ data.ri_total_pages.getD 1 then
          some (trace, logs)
        else
          fetch_page_shield_logsLoop server fuel (page + 1) trace logs

/-- `CloudflareAPI.fetch_page_shield_logs` (main.py lines 49-85): start at
page 1 with an empty accumulator. -/
def fetch_page_shield_logs {α : Type} (server : Nat → Option (RestPage α))
    (fuel : Nat) : Option (List Nat × List α) :=
  fetch_page_shield_logsLoop server fuel 1 [] []

/-- Modelled from the spec (§4.3 Page-Paginator, as restated by the generic
pattern of the pagination claim): per page, (1) if the response's success
flag is present and false, stop returning what has been accumulated; (2) if
the extracted result list is empty, stop contributing nothing from that
page; (3) if currentPage ≥ totalPages — currentPage read as the request
counter, totalPages defaulting to 1 when absent — stop after including this
page; (4) otherwise increment the page number and continue.  A failed
request stops the loop returning the accumulator, as in both code
instantiations. -/
def specGenericPaginate {α : Type} (server : Nat → Option (RestPage α)) :
    Nat → Nat → List Nat → List α → Option (List Nat × List α)
  | 0, _, _, _ => none
  | fuel + 1, page, trace, acc =>
    match server page with
    | none => some (trace ++ [page], acc)
    | some pg =>
      let trace := trace ++ [page]
      if pg.success = some false then
        some (trace, acc)
      else if pg.result.isEmpty then
        some (trace, acc)
      else
        let acc := acc ++ pg.result
        if page ≥ pg.ri_total_pages.getD 1 then
          some (trace, acc)
        else
          specGenericPaginate server fuel (page + 1) trace acc

/-- The GraphQL filter object built on main.py lines 115-119. -/
structure FWFilter where
  datetime_geq : String
  datetime_leq : String
  action : String
deriving Repr, DecidableEq

/-- The GraphQL `variables` object built on main.py lines 113-120. -/
structure FWVariables where
  zoneTag : String
  filter : FWFilter
deriving Repr, DecidableEq

/-- The POST body `{"query": query, "variables": variables}` sent on
main.py line 122; the `vars` field models the `"variables"` key
(`variables` is reserved in Lean). -/
structure FWRequest where
  query : String
  vars : FWVariables
deriving Repr, DecidableEq

/-- Text of the GraphQL query literal (main.py lines 88-111) up to the
`limit` argument.  Literal braces are written with hex escapes. -/
def fwQueryA : String :=
  "\n        query ($zoneTag: String!, $filter: FirewallEventsAdaptiveFilter_InputObject) \x7b\n          viewer \x7b\n            zones(filter: \x7b zoneTag: $zoneTag \x7d) \x7b\n              firewallEventsAdaptive(\n                filter: $filter\n                "

/-- Text of the GraphQL query literal between the `limit` and `orderBy`
arguments. -/
def fwQueryB : String :=
  "\n                "

/-- Text of the GraphQL query literal after the `orderBy` argument: the
selected fields and closing braces. -/
def fwQueryC : String :=
  "\n              ) \x7b\n                action\n                clientRequestHTTPHost\n                clientAsn\n                clientCountryName\n                clientIP\n                clientRequestPath\n                clientRequestQuery\n                datetime\n                source\n                userAgent\n              \x7d\n            \x7d\n          \x7d\n        \x7d\n        "

/-- The GraphQL query string literal of main.py lines 88-111, assembled
around its `limit: 10000` and `orderBy: [datetime_ASC]` arguments. -/
def firewallQuery : String :=
  fwQueryA ++ "limit: 10000" ++ fwQueryB ++ "orderBy: [datetime_ASC]" ++ fwQueryC

/-- Stand-in for Python's `datetime.isoformat()`: an injective rendering of
the timestamp.  Timestamps are modelled as integers (hours); no claim
inspects the rendered text beyond equality. -/
def isoformat (t : Int) : String :=
  toString t

/-- The request value `fetch_firewall_events` posts: the query literal plus
the variables `{zoneTag, filter: {datetime_geq, datetime_leq, action}}`
(main.py lines 113-122).  The datetime arguments are already rendered with
`isoformat`. -/
def mkFWRequest (zone_id start_iso end_iso : String) : FWRequest :=
  { query := firewallQuery,
    vars :=
      { zoneTag := zone_id,
        filter :=
          { datetime_geq := start_iso,
            datetime_leq := end_iso,
            action := "managed_challenge" } } }

/-- One entry of the response's `data.viewer.zones` array;
`firewallEventsAdaptive` is `none` when the key is absent
(`zones[0].get("firewallEventsAdaptive", [])`, main.py line 137). -/
structure FWZoneEntry (α : Type) where
  firewallEventsAdaptive : Option (List α)
deriving Repr, DecidableEq

/-- The decoded GraphQL response body, as far as the code reads it:
`data.get("data", {}).get("viewer", {}).get("zones", [])` (main.py
line 132), a missing path collapsing to the empty list. -/
structure FWRespData (α : Type) where
  zones : List (FWZoneEntry α)
deriving Repr, DecidableEq

/-- Outcome of the POST on main.py lines 121-130: a `RequestException`
(transport failure or non-2xx status via `raise_for_status`), a
`ValueError` from `response.json()`, or a decoded body. -/
inductive FWResponse (α : Type) where
  | requestError
  | decodeError
  | ok (data : FWRespData α)
deriving Repr, DecidableEq

/-- The diagnostics `fetch_firewall_events` prints (main.py lines 126, 129,
134); `noZones` carries the decoded payload, modelling the message that
embeds the raw response. -/
inductive FWLog (α : Type) where
  | requestFailed
  | decodeFailed
  | noZones (data : FWRespData α)
deriving Repr, DecidableEq

/-- `CloudflareAPI.fetch_firewall_events` (main.py lines 87-137).  Returns
the trace of issued requests, the printed diagnostics and the returned
event list.  On any modelled failure it returns `[]`; on a decoded body it
returns `zones[0].get("firewallEventsAdaptive", [])`, the zones after the
first being ignored. -/
def fetch_firewall_events {α : Type} (server : FWRequest → FWResponse α)
    (zone_id : String) (start_time end_time : Int) :
    List FWRequest × List (FWLog α) × List α :=
  let req := mkFWRequest zone_id (isoformat start_time) (isoformat end_time)
  match server req with
  | .requestError => ([req], [.requestFailed], [])
  | .decodeError => ([req], [.decodeFailed], [])
  | .ok d =>
    match d.zones with
    | [] => ([req], [.noZones d], [])
    | z0 :: _ => ([req], [], z0.firewallEventsAdaptive.getD [])

/-- The inner `for hour_offset in range(2)` loop of
`fetch_all_firewall_events` (main.py lines 148-160), generalized over the
list of offsets.  `fetch` abstracts the `fetch_firewall_events` call for one
(zone, window) pair: `.error` models a raised exception (caught and logged,
line 159), `.ok es` the returned event list.  The first component is the
trace of (zone_id, hour_start, hour_end) fetch arguments, the second the
events accumulated from successful fetches. -/
def windowFetch {α : Type} (fetch : String → Int → Int → Except Unit (List α))
    (now : Int) (zid : String) :
    List Nat → List (String × Int × Int) × List α
  | [] => ([], [])
  | off :: offs =>
    let hour_start : Int := now - ((off + 1) * 12 : Nat)
    let hour_end : Int := now - ((off * 12 : Nat) : Int)
    let here :=
      match fetch zid hour_start hour_end with
      | .ok hourly_events => hourly_events
      | .error _ => []
    let rest := windowFetch fetch now zid offs
    ((zid, hour_start, hour_end) :: rest.1, here ++ rest.2)

/-- `CloudflareAPI.fetch_all_firewall_events` (main.py lines 139-163): for
each zone, for `hour_offset in range(2)`, fetch the window
`[now - (offset+1)*12h, now - offset*12h]` and extend the accumulator;
`now` is read once at the start of the call (line 141) and passed in here,
the configured timezone only influencing its value. -/
def fetch_all_firewall_events {α : Type}
    (fetch : String → Int → Int → Except Unit (List α)) (now : Int) :
    List ZoneItem → List (String × Int × Int) × List α
  | [] => ([], [])
  | z :: zs =>
    let here := windowFetch fetch now z.id (List.range 2)
    let rest := fetch_all_firewall_events fetch now zs
    (here.1 ++ rest.1, here.2 ++ rest.2)


/-- The two exception kinds of the CSV layer: `ioError` models `open(...)`
failing because the destination is not writable, `valueError` models the
`ValueError` `csv.DictWriter.writerow` raises when a record has a key
outside the declared field names. -/
inductive CsvError where
  | ioError
  | valueError
deriving Repr, DecidableEq

/-- `csv.DictWriter.writerow` on a dict record (an association list of
string keys to string values): raises `ValueError` when some key is not
among the field names; otherwise emits one cell per field name in order,
a key absent from the record serializing as the empty string (the writer's
default `restval=None` is written as an empty cell). -/
def dictWriterRow (fieldnames : List String) (rec : List (String × String)) :
    Except CsvError (List String) :=
  if rec.all (fun kv => fieldnames.contains kv.1) then
    .ok (fieldnames.map (fun f => ((rec.lookup f).getD "")))
  else
    .error .valueError

/-- `csv.DictWriter.writerows`: write records one at a time, stopping at the
first failing record. -/
def writeRows (fieldnames : List String) :
    List (List (String × String)) → Except CsvError (List (List String))
  | [] => .ok []
  | rec :: recs =>
    match dictWriterRow fieldnames rec with
    | .error e => .error e
    | .ok row =>
      match writeRows fieldnames recs with
      | .error e => .error e
      | .ok rows => .ok (row :: rows)

/-- The field list declared in `FirewallEventManager.save_events_to_csv`
(main.py lines 174-178). -/
def eventFieldnames : List String :=
  ["action", "clientRequestHTTPHost", "clientAsn", "clientCountryName",
   "clientIP", "clientRequestPath", "clientRequestQuery", "datetime",
   "source", "userAgent"]

/-- `FirewallEventManager.save_events_to_csv` (main.py lines 172-181):
open the output file (a non-writable destination raises `IOError`,
modelled by the `writable` flag), write the header row, then the records.
The result is the written CSV as a list of rows of cells. -/
def save_events_to_csv (writable : Bool)
    (events : List (List (String × String))) :
    Except CsvError (List (List String)) :=
  if writable then
    match writeRows eventFieldnames events with
    | .error e => .error e
    | .ok rows => .ok (eventFieldnames :: rows)
  else
    .error .ioError

/-- A page-shield script record, as far as `save_logs_to_csv` reads it:
each field is `none` when the key is absent from the JSON object
(`log.get(key, "")` defaults), `page_urls` being a list of strings. -/
structure PSLog where
  url : Option String
  host : Option String
  first_seen_at : Option String
  last_seen_at : Option String
  hash : Option String
  malware_score : Option String
  magecart_score : Option String
  obfuscation_score : Option String
  cryptomining_score : Option String
  dataflow_score : Option String
  domain_reported_malicious : Option String
  url_reported_malicious : Option String
  page_urls : Option (List String)
deriving Repr, DecidableEq

/-- The field list declared in `PageShieldManager.save_logs_to_csv`
(main.py lines 208-213). -/
def psFieldnames : List String :=
  ["URL", "Host", "Primeira Detecção", "Última Detecção", "Hash",
   "Malware Score", "Magecart Score", "Obfuscation Score",
   "Cryptomining Score", "Dataflow Score", "Domínio Malicioso",
   "URL Maliciosa", "Páginas Relacionadas"]

/-- The dict built per log on main.py lines 218-232: each declared column
mapped to `log.get(key, "")`, with `page_urls` joined by `", "`. -/
def psRecord (log : PSLog) : List (String × String) :=
  [("URL", log.url.getD ""),
   ("Host", log.host.getD ""),
   ("Primeira Detecção", log.first_seen_at.getD ""),
   ("Última Detecção", log.last_seen_at.getD ""),
   ("Hash", log.hash.getD ""),
   ("Malware Score", log.malware_score.getD ""),
   ("Magecart Score", log.magecart_score.getD ""),
   ("Obfuscation Score", log.obfuscation_score.getD ""),
   ("Cryptomining Score", log.cryptomining_score.getD ""),
   ("Dataflow Score", log.dataflow_score.getD ""),
   ("Domínio Malicioso", log.domain_reported_malicious.getD ""),
   ("URL Maliciosa", log.url_reported_malicious.getD ""),
   ("Páginas Relacionadas", String.intercalate ", " (log.page_urls.getD []))]

/-- The row of cells `save_logs_to_csv` emits for one log record, in the
declared column order. -/
def psRow (log : PSLog) : List String :=
  [log.url.getD "", log.host.getD "", log.first_seen_at.getD "",
   log.last_seen_at.getD "", log.hash.getD "", log.malware_score.getD "",
   log.magecart_score.getD "", log.obfuscation_score.getD "",
   log.cryptomining_score.getD "", log.dataflow_score.getD "",
   log.domain_reported_malicious.getD "", log.url_reported_malicious.getD "",
   String.intercalate ", " (log.page_urls.getD [])]

/-- `PageShieldManager.save_logs_to_csv` (main.py lines 205-232): open the
file, write the header, then one `writerow` per log with the explicit dict
of main.py lines 218-232. -/
def save_logs_to_csv (writable : Bool) (logs : List PSLog) :
    Except CsvError (List (List String)) :=
  if writable then
    match writeRows psFieldnames (logs.map psRecord) with
    | .error e => .error e
    | .ok rows => .ok (psFieldnames :: rows)
  else
    .error .ioError

/-- `FirewallEventManager.fetch_and_save_events` (main.py lines 183-196):
`zones` stands for the result of `self.cloudflare_api.get_zones()`; if it
is empty the job returns without writing (`.ok none`); otherwise the events
are fetched through `fetch_all_firewall_events` and, when nonempty, written
with `save_events_to_csv`, whose exceptions propagate uncaught. -/
def fetch_and_save_events (writable : Bool)
    (fetch : String → Int → Int → Except Unit (List (List (String × String))))
    (now : Int) (zones : List ZoneItem) :
    Except CsvError (Option (List (List String))) :=
  if zones = [] then .ok none
  else
    let events := (fetch_all_firewall_events fetch now zones).2
    if events = [] then .ok none
    else
      match save_events_to_csv writable events with
      | .error e => .error e
      | .ok rows => .ok (some rows)

/-- The value the driving loop keeps from the fetch of one (zone, window)
pair: the returned events on success, nothing when it raised. -/
def fetchResult {α : Type}
    (fetch : String → Int → Int → Except Unit (List α))
    (w : String × Int × Int) : List α :=
  match fetch w.1 w.2.1 w.2.2 with
  | .ok es => es
  | .error _ => []

/-- The claimed generic-pattern instantiation for zone listing: the generic
paginator with the per-item field mapping `zoneProj` applied to the
aggregate. -/
def specZonesPaginate (server : Nat → Option (RestPage ZoneRaw))
    (fuel : Nat) : Option (List Nat × List ZoneItem) :=
  (specGenericPaginate server fuel 1 [] []).map
    (fun r => (r.1, r.2.map zoneProj))

/-! ### Concrete fixtures used by witnesses and counterexamples -/

/-- A two-page zones response family: page 1 reports page 1 of 2, page 2
reports page 2 of 2. -/
def zrespW : Nat → RestPage ZoneRaw := fun p =>
  if p = 1 then ⟨none, [⟨"z1", "n1", []⟩], some 1, some 2⟩
  else ⟨none, [⟨"z2", "n2", []⟩], some 2, some 2⟩

/-- A zones server serving `zrespW` on pages 1-2 and failing elsewhere. -/
def zservW : Nat → Option (RestPage ZoneRaw) := fun p =>
  if 1 ≤ p ∧ p ≤ 2 then some (zrespW p) else none

/-- A two-page page-shield response family with `success = true`. -/
def prespW : Nat → RestPage String := fun p =>
  if p = 1 then ⟨some true, ["a", "b"], some 1, some 2⟩
  else ⟨some true, ["c"], some 2, some 2⟩

/-- A page-shield server serving `prespW` on pages 1-2 and failing
elsewhere. -/
def psservW : Nat → Option (RestPage String) := fun p =>
  if 1 ≤ p ∧ p ≤ 2 then some (prespW p) else none

/-- A server whose first page is successful but empty while reporting 2
total pages; the generic pattern stops at page 1, `get_zones` does not. -/
def c2server : Nat → Option (RestPage ZoneRaw) := fun p =>
  if p = 1 then some ⟨some true, [], some 1, some 2⟩
  else if p = 2 then some ⟨some true, [⟨"zA", "nA", []⟩], some 2, some 2⟩
  else none

/-- A GraphQL server answering every request with one zone entry. -/
def fwServOkW : FWRequest → FWResponse String :=
  fun _ => .ok ⟨[⟨some ["e1", "e2"]⟩]⟩

/-- A GraphQL server failing every request at the transport/status layer. -/
def fwServReqErrW : FWRequest → FWResponse String :=
  fun _ => .requestError

/-- A GraphQL server answering every request with an undecodable body. -/
def fwServDecErrW : FWRequest → FWResponse String :=
  fun _ => .decodeError

/-- A GraphQL server answering with a well-formed but zone-empty body. -/
def fwServNoZonesW : FWRequest → FWResponse String :=
  fun _ => .ok ⟨[]⟩

/-- A GraphQL server answering with two zone entries. -/
def fwServTwoW : FWRequest → FWResponse String :=
  fun _ => .ok ⟨[⟨some ["x"]⟩, ⟨some ["y", "z"]⟩]⟩

/-- A zones server that never supplies pagination metadata. -/
def zservNoMetaW : Nat → Option (RestPage ZoneRaw) := fun p =>
  if p = 1 then some ⟨none, [⟨"z1", "n1", []⟩], none, none⟩ else none

/-- A page-shield server that never supplies pagination metadata. -/
def psservNoMetaW : Nat → Option (RestPage String) := fun p =>
  if p = 1 then some ⟨some true, ["a", "b"], none, none⟩ else none

/-- A page-shield record carrying only a url and two related page urls. -/
def psLogW : PSLog :=
  ⟨some "u", none, none, none, none, none, none, none, none, none, none,
   none, some ["a", "b"]⟩

/-- A single-zone list. -/
def zonesW : List ZoneItem := [⟨"z1", "n1"⟩]

/-- An event fetch whose records carry a key outside the declared CSV
field list. -/
def fetchBadW : String → Int → Int → Except Unit (List (List (String × String))) :=
  fun _ _ _ => .ok [[("bad", "y")]]

/-- An event fetch whose records stay within the declared CSV field list. -/
def fetchGoodW : String → Int → Int → Except Unit (List (List (String × String))) :=
  fun _ _ _ => .ok [[("action", "allow")]]

/-! ### Helper lemmas -/

theorem get_zonesLoop_run (server : Nat → Option (RestPage ZoneRaw))
    (resp : Nat → RestPage ZoneRaw) (N : Nat)
    (hs : ∀ p, 1 ≤ p → p ≤ N → server p = some (resp p))
    (hpg : ∀ p, 1 ≤ p → p ≤ N → (resp p).ri_page = some p)
    (htp : ∀ p, 1 ≤ p → p ≤ N → (resp p).ri_total_pages = some N) :
    ∀ fuel p trace zones, 1 ≤ p → p ≤ N → N - p < fuel →
      get_zonesLoop server fuel p trace zones =
        some (trace ++ List.range' p (N - p + 1),
          zones ++ ((List.range' p (N - p + 1)).map
            (fun q => (resp q).result.map zoneProj)).flatten) := by
  intro fuel
  induction fuel with
  | zero => intro p trace zones h1 h2 h3; omega
  | succ fuel ih =>
    intro p trace zones h1 h2 h3
    rw [get_zonesLoop]
    rw [hs p h1 h2]
    simp only [hpg p h1 h2, htp p h1 h2, Option.getD_some]
    rcases eq_or_lt_of_le h2 with heq | hlt
    · subst heq
      rw [if_pos (le_refl p)]
      simp
    · rw [if_neg (by omega)]
      rw [ih (p + 1) (trace ++ [p]) (zones ++ (resp p).result.map zoneProj)
        (by omega) (by omega) (by omega)]
      have hk : N - p = (N - (p + 1)) + 1 := by omega
      rw [hk, List.range'_succ p (N - (p + 1) + 1) 1]
      simp [List.append_assoc]

theorem fetch_page_shield_logsLoop_run {α : Type}
    (server : Nat → Option (RestPage α)) (resp : Nat → RestPage α) (N : Nat)
    (hs : ∀ p, 1 ≤ p → p ≤ N → server p = some (resp p))
    (hsucc : ∀ p, 1 ≤ p → p ≤ N → (resp p).success = some true)
    (hne : ∀ p, 1 ≤ p → p ≤ N → (resp p).result ≠ [])
    (htp : ∀ p, 1 ≤ p → p ≤ N → (resp p).ri_total_pages = some N) :
    ∀ fuel p trace logs, 1 ≤ p → p ≤ N → N - p < fuel →
      fetch_page_shield_logsLoop server fuel p trace logs =
        some (trace ++ List.range' p (N - p + 1),
          logs ++ ((List.range' p (N - p + 1)).map
            (fun q => (resp q).result)).flatten) := by
  intro fuel
  induction fuel with
  | zero => intro p trace logs h1 h2 h3; omega
  | succ fuel ih =>
    intro p trace logs h1 h2 h3
    rw [fetch_page_shield_logsLoop]
    rw [hs p h1 h2]
    simp only [hsucc p h1 h2, htp p h1 h2, Option.getD_some,
      Bool.true_eq_false, if_false,
      List.isEmpty_eq_true, hne p h1 h2, if_false]
    rcases eq_or_lt_of_le h2 with heq | hlt
    · subst heq
      rw [if_pos (le_refl p)]
      simp
    · rw [if_neg (by omega)]
      rw [ih (p + 1) (trace ++ [p]) (logs ++ (resp p).result)
        (by omega) (by omega) (by omega)]
      have hk : N - p = (N - (p + 1)) + 1 := by omega
      rw [hk, List.range'_succ p (N - (p + 1) + 1) 1]
      simp [List.append_assoc]

theorem fetch_page_shield_logsLoop_eq_spec {α : Type}
    (server : Nat → Option (RestPage α))
    (hs : ∀ p r, server p = some r → r.success ≠ none) :
    ∀ fuel page trace logs,
      fetch_page_shield_logsLoop server fuel page trace logs =
        specGenericPaginate server fuel page trace logs := by
  intro fuel
  induction fuel with
  | zero => intro page trace logs; rfl
  | succ fuel ih =>
    intro page trace logs
    rw [fetch_page_shield_logsLoop, specGenericPaginate]
    cases hsv : server page with
    | none => rfl
    | some r =>
      dsimp only
      cases hb : r.success with
      | none => exact absurd hb (hs page r hsv)
      | some b =>
        cases b with
        | false => simp
        | true =>
          simp only [Option.getD_some]
          rw [if_neg (by simp : ¬ (true = false))]
          rw [if_neg (by simp : ¬ ((some true : Option Bool) = some false))]
          by_cases hemp : r.result.isEmpty = true
          · rw [if_pos hemp, if_pos hemp]
          · rw [if_neg hemp, if_neg hemp]
            by_cases hpg : page ≥ r.ri_total_pages.getD 1
            · rw [if_pos hpg, if_pos hpg]
            · rw [if_neg hpg, if_neg hpg]
              exact ih (page + 1) (trace ++ [page]) (logs ++ r.result)

theorem dictWriterRow_ok (fieldnames : List String)
    (rec : List (String × String)) (h : ∀ kv ∈ rec, kv.1 ∈ fieldnames) :
    dictWriterRow fieldnames rec =
      .ok (fieldnames.map (fun f => ((rec.lookup f).getD ""))) := by
  rw [dictWriterRow, if_pos]
  simp only [List.all_eq_true]
  intro x hx
  simpa using h x hx

theorem dictWriterRow_error (fieldnames : List String)
    (rec : List (String × String)) (kv : String × String)
    (hmem : kv ∈ rec) (hnot : kv.1 ∉ fieldnames) :
    dictWriterRow fieldnames rec = .error .valueError := by
  rw [dictWriterRow, if_neg]
  intro hall
  rw [List.all_eq_true] at hall
  exact hnot (by simpa using hall kv hmem)

theorem writeRows_ok (fieldnames : List String)
    (recs : List (List (String × String)))
    (h : ∀ rec ∈ recs, ∀ kv ∈ rec, kv.1 ∈ fieldnames) :
    writeRows fieldnames recs =
      .ok (recs.map (fun rec =>
        fieldnames.map (fun f => ((rec.lookup f).getD "")))) := by
  induction recs with
  | nil => rfl
  | cons rec recs ih =>
    rw [writeRows]
    rw [dictWriterRow_ok fieldnames rec (h rec (List.mem_cons_self rec recs))]
    rw [ih (fun r hr => h r (List.mem_cons_of_mem rec hr))]
    rfl

theorem writeRows_error (fieldnames : List String)
    (recs : List (List (String × String))) (rec : List (String × String))
    (kv : String × String) (hrec : rec ∈ recs) (hmem : kv ∈ rec)
    (hnot : kv.1 ∉ fieldnames) :
    writeRows fieldnames recs = .error .valueError := by
  induction recs with
  | nil => cases hrec
  | cons r rs ih =>
    rw [writeRows]
    rcases List.mem_cons.mp hrec with heq | htail
    · subst heq
      rw [dictWriterRow_error fieldnames rec kv hmem hnot]
    · cases hd : dictWriterRow fieldnames r with
      | error e =>
        have : e = .valueError := by
          rw [dictWriterRow] at hd
          by_cases hc : r.all (fun kv => fieldnames.contains kv.1) = true
          · rw [if_pos hc] at hd; cases hd
          · rw [if_neg hc] at hd; cases hd; rfl
        rw [this]
      | ok row => rw [ih htail]

theorem windowFetch_range2_trace {α : Type}
    (fetch : String → Int → Int → Except Unit (List α)) (now : Int)
    (zid : String) :
    (windowFetch fetch now zid (List.range 2)).1 =
      [(zid, now - 12, now), (zid, now - 24, now - 12)] := by
  show (windowFetch fetch now zid [0, 1]).1 = _
  rw [windowFetch, windowFetch, windowFetch]
  norm_num

theorem windowFetch_range2_events {α : Type}
    (fetch : String → Int → Int → Except Unit (List α)) (now : Int)
    (zid : String) :
    (windowFetch fetch now zid (List.range 2)).2 =
      fetchResult fetch (zid, now - 12, now) ++
        fetchResult fetch (zid, now - 24, now - 12) := by
  show (windowFetch fetch now zid [0, 1]).2 = _
  rw [windowFetch, windowFetch, windowFetch]
  rw [fetchResult, fetchResult]
  norm_num

theorem dictWriterRow_psRecord (log : PSLog) :
    dictWriterRow psFieldnames (psRecord log) = .ok (psRow log) := rfl

theorem writeRows_psRecords (logs : List PSLog) :
    writeRows psFieldnames (logs.map psRecord) = .ok (logs.map psRow) := by
  induction logs with
  | nil => rfl
  | cons log logs ih =>
    simp only [List.map_cons, writeRows, dictWriterRow_psRecord, ih]

/-! ### Claim theorems -/

/-- C1: For every paginated fetch — zone listing via `get_zones` and
page-shield retrieval via `fetch_page_shield_logs` — if every response
reports `total_pages = N` with the reported current page matching the
request sequence, no page's result list is empty, and no request fails
(for the page-shield envelope this includes the success flag being true),
then the paginator issues exactly the N page requests 1 through N and the
returned list equals the concatenation of each page's result items in
request order. -/
theorem claim_C1_paginators_complete {α : Type}
    (zserver : Nat → Option (RestPage ZoneRaw)) (zresp : Nat → RestPage ZoneRaw)
    (pserver : Nat → Option (RestPage α)) (presp : Nat → RestPage α)
    (N fuel : Nat) (hN : 1 ≤ N) (hfuel : N ≤ fuel)
    (hz : ∀ p, 1 ≤ p → p ≤ N → zserver p = some (zresp p))
    (hzpg : ∀ p, 1 ≤ p → p ≤ N → (zresp p).ri_page = some p)
    (hztp : ∀ p, 1 ≤ p → p ≤ N → (zresp p).ri_total_pages = some N)
    (hzne : ∀ p, 1 ≤ p → p ≤ N → (zresp p).result ≠ [])
    (hp : ∀ p, 1 ≤ p → p ≤ N → pserver p = some (presp p))
    (hppg : ∀ p, 1 ≤ p → p ≤ N → (presp p).ri_page = some p)
    (hptp : ∀ p, 1 ≤ p → p ≤ N → (presp p).ri_total_pages = some N)
    (hpsucc : ∀ p, 1 ≤ p → p ≤ N → (presp p).success = some true)
    (hpne : ∀ p, 1 ≤ p → p ≤ N → (presp p).result ≠ []) :
    get_zones zserver fuel =
      some (List.range' 1 N,
        ((List.range' 1 N).map
          (fun q => (zresp q).result.map zoneProj)).flatten) ∧
    fetch_page_shield_logs pserver fuel =
      some (List.range' 1 N,
        ((List.range' 1 N).map (fun q => (presp q).result)).flatten) := by
  constructor
  · have h := get_zonesLoop_run zserver zresp N hz hzpg hztp fuel 1 [] []
      (le_refl 1) hN (by omega)
    rw [get_zones, h]
    have hN1 : N - 1 + 1 = N := by omega
    rw [hN1]
    simp
  · have h := fetch_page_shield_logsLoop_run pserver presp N hp hpsucc hpne
      hptp fuel 1 [] [] (le_refl 1) hN (by omega)
    rw [fetch_page_shield_logs, h]
    have hN1 : N - 1 + 1 = N := by omega
    rw [hN1]
    simp

/-- Witness for C1: a concrete two-page zones server and a concrete
two-page page-shield server, both satisfying the hypotheses with N = 2. -/
theorem claim_C1_paginators_complete_witness :
    get_zones zservW 2 =
      some (List.range' 1 2,
        ((List.range' 1 2).map
          (fun q => (zrespW q).result.map zoneProj)).flatten) ∧
    fetch_page_shield_logs psservW 2 =
      some (List.range' 1 2,
        ((List.range' 1 2).map (fun q => (prespW q).result)).flatten) := by
  have hcase : ∀ p : Nat, 1 ≤ p → p ≤ 2 → p = 1 ∨ p = 2 := by omega
  refine claim_C1_paginators_complete zservW zrespW psservW prespW 2 2
    (by omega) (by omega) ?_ ?_ ?_ ?_ ?_ ?_ ?_ ?_ ?_ <;>
    intro p h1 h2 <;> rcases hcase p h1 h2 with h | h <;> subst h <;>
    first
      | (show zservW _ = _; rw [zservW]; norm_num)
      | (show psservW _ = _; rw [psservW]; norm_num)
      | decide

/-- C2 counterexample: zone listing is not an instantiation of the claimed
generic pattern.  On a server whose first page is successful but has an
empty result list while reporting 2 total pages, the pattern (with the
per-item mapping `zoneProj`, `specZonesPaginate`) stops at page 1 with no
items, while `get_zones` — which performs neither the success check nor
the empty-page check — requests page 2 as well and returns its zone, so
the two differ in their very request traces, which no URL, page size or
per-item mapping difference can produce. -/
theorem claim_C2_counterexample :
    get_zones c2server 5 = some ([1, 2], [⟨"zA", "nA"⟩]) ∧
    specZonesPaginate c2server 5 = some ([1], []) ∧
    get_zones c2server 5 ≠ specZonesPaginate c2server 5 := by
  decide

/-- C2 (amended): page-shield log retrieval instantiates the generic
four-step pattern — with `currentPage` read as the request counter and a
missing `total_pages` defaulting to 1 — for every server whose responses
always carry the success flag; zone listing does not instantiate the
pattern: it performs neither the success-flag check nor the empty-page
check and compares the response-reported page number against
`total_pages`, so the two loops differ beyond URL, page size, and per-item
field mapping. -/
theorem claim_C2_pattern_refinement {α : Type}
    (server : Nat → Option (RestPage α))
    (hs : ∀ p r, server p = some r → r.success ≠ none) (fuel : Nat) :
    fetch_page_shield_logs server fuel =
      specGenericPaginate server fuel 1 [] [] :=
  fetch_page_shield_logsLoop_eq_spec server hs fuel 1 [] []

/-- Witness for the amended C2: the concrete two-page page-shield server
always carries a success flag, and on it the loop agrees with the generic
pattern. -/
theorem claim_C2_pattern_refinement_witness :
    fetch_page_shield_logs psservW 3 =
      specGenericPaginate psservW 3 1 [] [] := by
  refine claim_C2_pattern_refinement psservW ?_ 3
  intro p r h
  rw [psservW] at h
  by_cases hp : 1 ≤ p ∧ p ≤ 2
  · rw [if_pos hp] at h
    cases h
    rw [prespW]
    by_cases hp1 : p = 1
    · rw [if_pos hp1]; simp
    · rw [if_neg hp1]; simp
  · rw [if_neg hp] at h
    cases h

/-- C3: every call of `fetch_firewall_events` issues exactly one request:
its variables carry the filter `{datetime_geq: start, datetime_leq: end,
action: "managed_challenge"}` with the zone tag, its query text requests
`limit: 10000` records with `orderBy: [datetime_ASC]`, and no further
pagination or truncation handling exists — a decoded single-zone response
is returned unchanged whatever its length. -/
theorem claim_C3_single_request {α : Type} (server : FWRequest → FWResponse α)
    (zone_id : String) (start_time end_time : Int) :
    (fetch_firewall_events server zone_id start_time end_time).1 =
      [mkFWRequest zone_id (isoformat start_time) (isoformat end_time)] ∧
    (mkFWRequest zone_id (isoformat start_time) (isoformat end_time)).vars =
      { zoneTag := zone_id,
        filter := { datetime_geq := isoformat start_time,
                    datetime_leq := isoformat end_time,
                    action := "managed_challenge" } } ∧
    (∃ a b c,
      (mkFWRequest zone_id (isoformat start_time) (isoformat end_time)).query =
        a ++ "limit: 10000" ++ b ++ "orderBy: [datetime_ASC]" ++ c) ∧
    (∀ d : FWRespData α,
      server (mkFWRequest zone_id (isoformat start_time) (isoformat end_time)) =
        .ok d →
      ∀ z0 rest, d.zones = z0 :: rest →
        (fetch_firewall_events server zone_id start_time end_time).2.2 =
          z0.firewallEventsAdaptive.getD []) := by
  refine ⟨?_, rfl, ⟨fwQueryA, fwQueryB, fwQueryC, rfl⟩, ?_⟩
  · rw [fetch_firewall_events]
    cases hsv : server (mkFWRequest zone_id (isoformat start_time)
      (isoformat end_time)) with
    | requestError => rfl
    | decodeError => rfl
    | ok d =>
      obtain ⟨zs⟩ := d
      cases zs <;> rfl
  · intro d hd z0 rest hz
    obtain ⟨zs⟩ := d
    replace hz : zs = z0 :: rest := hz
    subst hz
    rw [fetch_firewall_events, hd]

/-- Witness for C3: on a concrete server answering with one zone entry of
two events, the call issues exactly one request and returns those events. -/
theorem claim_C3_single_request_witness :
    (fetch_firewall_events fwServOkW "zone1" 5 17).1 =
      [mkFWRequest "zone1" (isoformat 5) (isoformat 17)] ∧
    (fetch_firewall_events fwServOkW "zone1" 5 17).2.2 = ["e1", "e2"] := by
  have h := claim_C3_single_request fwServOkW "zone1" 5 17
  refine ⟨h.1, ?_⟩
  have h4 := h.2.2.2 ⟨[⟨some ["e1", "e2"]⟩]⟩ rfl ⟨some ["e1", "e2"]⟩ [] rfl
  simpa using h4

/-- C4: `fetch_firewall_events` never raises past its boundary: on a
transport failure or non-2xx status (the caught `RequestException`), or a
JSON-decode failure (the caught `ValueError`), it logs and returns the
empty list; on a well-formed response whose `data.viewer.zones` list is
empty it logs a diagnostic carrying the response payload and returns the
empty list. -/
theorem claim_C4_error_boundary {α : Type} (server : FWRequest → FWResponse α)
    (zone_id : String) (start_time end_time : Int) :
    (server (mkFWRequest zone_id (isoformat start_time) (isoformat end_time)) =
        .requestError →
      fetch_firewall_events server zone_id start_time end_time =
        ([mkFWRequest zone_id (isoformat start_time) (isoformat end_time)],
         [.requestFailed], [])) ∧
    (server (mkFWRequest zone_id (isoformat start_time) (isoformat end_time)) =
        .decodeError →
      fetch_firewall_events server zone_id start_time end_time =
        ([mkFWRequest zone_id (isoformat start_time) (isoformat end_time)],
         [.decodeFailed], [])) ∧
    (∀ d : FWRespData α,
      server (mkFWRequest zone_id (isoformat start_time) (isoformat end_time)) =
        .ok d →
      d.zones = [] →
      fetch_firewall_events server zone_id start_time end_time =
        ([mkFWRequest zone_id (isoformat start_time) (isoformat end_time)],
         [.noZones d], [])) := by
  refine ⟨?_, ?_, ?_⟩
  · intro h
    rw [fetch_firewall_events, h]
  · intro h
    rw [fetch_firewall_events, h]
  · intro d hd hz
    obtain ⟨zs⟩ := d
    replace hz : zs = [] := hz
    subst hz
    rw [fetch_firewall_events, hd]

/-- Witness for C4: the three failure modes at concrete servers, each
returning the empty event list with the matching diagnostic. -/
theorem claim_C4_error_boundary_witness :
    fetch_firewall_events fwServReqErrW "z" 0 1 =
      ([mkFWRequest "z" (isoformat 0) (isoformat 1)], [.requestFailed], []) ∧
    fetch_firewall_events fwServDecErrW "z" 0 1 =
      ([mkFWRequest "z" (isoformat 0) (isoformat 1)], [.decodeFailed], []) ∧
    fetch_firewall_events fwServNoZonesW "z" 0 1 =
      ([mkFWRequest "z" (isoformat 0) (isoformat 1)],
       [.noZones ⟨[]⟩], ([] : List String)) := by
  refine ⟨?_, ?_, ?_⟩
  · exact (claim_C4_error_boundary fwServReqErrW "z" 0 1).1 rfl
  · exact (claim_C4_error_boundary fwServDecErrW "z" 0 1).2.1 rfl
  · exact (claim_C4_error_boundary fwServNoZonesW "z" 0 1).2.2 ⟨[]⟩ rfl rfl

/-- C8: `fetch_firewall_events` reads only the first element of the
response's `data.viewer.zones` array: for every well-formed response with
two or more entries the result equals the first entry's events, whatever
the later entries hold, so their events are discarded. -/
theorem claim_C8_first_zone_only {α : Type} (server : FWRequest → FWResponse α)
    (zone_id : String) (start_time end_time : Int) (d : FWRespData α)
    (z0 z1 : FWZoneEntry α) (rest : List (FWZoneEntry α))
    (hd : server (mkFWRequest zone_id (isoformat start_time)
      (isoformat end_time)) = .ok d)
    (hz : d.zones = z0 :: z1 :: rest) :
    (fetch_firewall_events server zone_id start_time end_time).2.2 =
      z0.firewallEventsAdaptive.getD [] := by
  obtain ⟨zs⟩ := d
  replace hz : zs = z0 :: z1 :: rest := hz
  subst hz
  rw [fetch_firewall_events, hd]

/-- Witness for C8: on a concrete server answering with two zone entries,
only the first entry's events are returned. -/
theorem claim_C8_first_zone_only_witness :
    (fetch_firewall_events fwServTwoW "z" 0 1).2.2 = ["x"] := by
  have h := claim_C8_first_zone_only fwServTwoW "z" 0 1
    ⟨[⟨some ["x"]⟩, ⟨some ["y", "z"]⟩]⟩ ⟨some ["x"]⟩ ⟨some ["y", "z"]⟩ []
    rfl rfl
  simpa using h

theorem fetch_all_trace {α : Type}
    (fetch : String → Int → Int → Except Unit (List α)) (now : Int)
    (zones : List ZoneItem) :
    (fetch_all_firewall_events fetch now zones).1 =
      zones.flatMap (fun z =>
        [(z.id, now - 12, now), (z.id, now - 24, now - 12)]) := by
  induction zones with
  | nil => rfl
  | cons z zs ih =>
    rw [fetch_all_firewall_events]
    show (windowFetch fetch now z.id (List.range 2)).1 ++
        (fetch_all_firewall_events fetch now zs).1 = _
    rw [windowFetch_range2_trace, ih, List.flatMap_cons]

theorem fetch_all_events_eq {α : Type}
    (fetch : String → Int → Int → Except Unit (List α)) (now : Int)
    (zones : List ZoneItem) :
    (fetch_all_firewall_events fetch now zones).2 =
      ((fetch_all_firewall_events fetch now zones).1.map
        (fetchResult fetch)).flatten := by
  induction zones with
  | nil => rfl
  | cons z zs ih =>
    rw [fetch_all_firewall_events]
    show (windowFetch fetch now z.id (List.range 2)).2 ++
        (fetch_all_firewall_events fetch now zs).2 =
      (((windowFetch fetch now z.id (List.range 2)).1 ++
        (fetch_all_firewall_events fetch now zs).1).map
          (fetchResult fetch)).flatten
    rw [windowFetch_range2_events, windowFetch_range2_trace, ih]
    simp [List.append_assoc]

/-- C5: for every zone list of length Z, `fetch_all_firewall_events`
issues exactly 2*Z event-fetch calls, one per (zone, window) pair, the two
windows per zone being computed once from the `now` taken at the start of
the call: `[now-12h, now]` first, then `[now-24h, now-12h]` (hours modelled
as integer offsets, the configured timezone only determining the value of
`now`). -/
theorem claim_C5_two_windows_per_zone {α : Type}
    (fetch : String → Int → Int → Except Unit (List α)) (now : Int)
    (zones : List ZoneItem) :
    (fetch_all_firewall_events fetch now zones).1 =
      zones.flatMap (fun z =>
        [(z.id, now - 12, now), (z.id, now - 24, now - 12)]) ∧
    (fetch_all_firewall_events fetch now zones).1.length =
      2 * zones.length := by
  refine ⟨fetch_all_trace fetch now zones, ?_⟩
  rw [fetch_all_trace fetch now zones]
  induction zones with
  | nil => rfl
  | cons z zs ih =>
    rw [List.flatMap_cons, List.length_append, ih, List.length_cons]
    simp only [List.length_cons, List.length_nil]
    omega

/-- C6: a failed or empty event fetch for one (zone, window) pair does not
prevent the others: the trace always covers every (zone, window) pair, the
returned events are the concatenation of the per-pair successful results
(an exception contributing nothing), and the total length is the sum of
the successful fetches' result lengths only. -/
theorem claim_C6_failure_isolation {α : Type}
    (fetch : String → Int → Int → Except Unit (List α)) (now : Int)
    (zones : List ZoneItem) :
    (fetch_all_firewall_events fetch now zones).1 =
      zones.flatMap (fun z =>
        [(z.id, now - 12, now), (z.id, now - 24, now - 12)]) ∧
    (fetch_all_firewall_events fetch now zones).2 =
      ((fetch_all_firewall_events fetch now zones).1.map
        (fetchResult fetch)).flatten ∧
    (fetch_all_firewall_events fetch now zones).2.length =
      ((fetch_all_firewall_events fetch now zones).1.map
        (fun w => (fetchResult fetch w).length)).sum := by
  refine ⟨fetch_all_trace fetch now zones, fetch_all_events_eq fetch now zones,
    ?_⟩
  rw [fetch_all_events_eq fetch now zones, List.length_flatten, List.map_map]
  rfl

/-- C9: in both paginators a response without `result_info` (or without its
`page` / `total_pages` fields) defaults the missing values to 1, so the
loop stops after that page: against a server that never supplies
pagination metadata, `get_zones` and `fetch_page_shield_logs` issue only
the page-1 request and return exactly the first page's items (for the
page-shield envelope, with its success flag true). -/
theorem claim_C9_metadata_defaults {α : Type}
    (zserver : Nat → Option (RestPage ZoneRaw)) (zr : RestPage ZoneRaw)
    (pserver : Nat → Option (RestPage α)) (pr : RestPage α) (fuel : Nat)
    (hfuel : 1 ≤ fuel)
    (hz1 : zserver 1 = some zr) (hz2 : zr.ri_page = none)
    (hz3 : zr.ri_total_pages = none)
    (hp1 : pserver 1 = some pr) (hp2 : pr.ri_page = none)
    (hp3 : pr.ri_total_pages = none) (hp4 : pr.success = some true) :
    get_zones zserver fuel = some ([1], zr.result.map zoneProj) ∧
    fetch_page_shield_logs pserver fuel = some ([1], pr.result) := by
  cases fuel with
  | zero => omega
  | succ f =>
    constructor
    · rw [get_zones, get_zonesLoop, hz1]
      simp only [hz2, hz3, Option.getD_none, ge_iff_le, le_refl, if_true]
      simp
    · rw [fetch_page_shield_logs, fetch_page_shield_logsLoop, hp1]
      simp only [hp4, Option.getD_some]
      rw [if_neg (by simp : ¬ (true = false))]
      by_cases hemp : pr.result.isEmpty = true
      · rw [if_pos hemp]
        simp only [List.isEmpty_eq_true] at hemp
        simp [hemp]
      · rw [if_neg hemp]
        simp only [hp3, Option.getD_none, ge_iff_le, le_refl, if_true]
        simp

/-- Witness for C9: concrete metadata-free servers for both paginators,
each returning exactly its first page's items after a single request. -/
theorem claim_C9_metadata_defaults_witness :
    get_zones zservNoMetaW 4 = some ([1], [⟨"z1", "n1"⟩]) ∧
    fetch_page_shield_logs psservNoMetaW 4 = some ([1], ["a", "b"]) := by
  have h := claim_C9_metadata_defaults zservNoMetaW
    ⟨none, [⟨"z1", "n1", []⟩], none, none⟩ psservNoMetaW
    ⟨some true, ["a", "b"], none, none⟩ 4 (by omega) rfl rfl rfl rfl rfl rfl
    rfl
  simpa using h

/-- C7: each CSV writer writes first a header row exactly matching its
declared field list, then one row per record in input order; a field
missing from a record serializes as the empty string in its column; and in
the page-shield writer a record whose `page_urls` is `["a", "b"]`
serializes that sequence as the single cell `"a, b"` (the last of its 13
columns). -/
theorem claim_C7_csv_serialization
    (events : List (List (String × String))) (logs : List PSLog)
    (hkeys : ∀ rec ∈ events, ∀ kv ∈ rec, kv.1 ∈ eventFieldnames) :
    save_events_to_csv true events =
      .ok (eventFieldnames :: events.map (fun rec =>
        eventFieldnames.map (fun f => ((rec.lookup f).getD "")))) ∧
    (∀ rec ∈ events, ∀ (i : Nat) (f : String), eventFieldnames[i]? = some f →
      rec.lookup f = none →
      (eventFieldnames.map (fun g => ((rec.lookup g).getD "")))[i]? =
        some "") ∧
    save_logs_to_csv true logs = .ok (psFieldnames :: logs.map psRow) ∧
    (∀ log : PSLog, log.page_urls = some ["a", "b"] →
      (psRow log)[12]? = some "a, b") := by
  refine ⟨?_, ?_, ?_, ?_⟩
  · rw [save_events_to_csv, if_pos rfl, writeRows_ok eventFieldnames events
      hkeys]
  · intro rec _ i f hf hnone
    simp [List.getElem?_map, hf, hnone]
  · rw [save_logs_to_csv, if_pos rfl, writeRows_psRecords logs]
  · intro log hpu
    rw [psRow, hpu]
    rfl

/-- Witness for C7: one event record holding only an `action` key and one
page-shield record holding only a url and two related page urls. -/
theorem claim_C7_csv_serialization_witness :
    save_events_to_csv true [[("action", "block")]] =
      .ok (eventFieldnames :: [[("action", "block")]].map (fun rec =>
        eventFieldnames.map (fun f => ((rec.lookup f).getD "")))) ∧
    save_logs_to_csv true [psLogW] = .ok (psFieldnames :: [psLogW].map psRow) ∧
    (psRow psLogW)[12]? = some "a, b" := by
  have h := claim_C7_csv_serialization [[("action", "block")]] [psLogW]
    (by decide)
  exact ⟨h.1, h.2.2.1, h.2.2.2 psLogW rfl⟩

/-- C10: when zone discovery and the event fetch produce a nonempty event
list, `save_events_to_csv` raises a `ValueError` — which propagates
uncaught out of `fetch_and_save_events`, aborting the job — whenever some
event record contains a key outside the ten declared field names, while a
key absent from a record serializes as the empty string; the events job
succeeds exactly when every record's keys lie in the declared field list
and the destination file is writable. -/
theorem claim_C10_extra_key_raises
    (fetch : String → Int → Int → Except Unit (List (List (String × String))))
    (now : Int) (zones : List ZoneItem)
    (hz : zones ≠ [])
    (he : (fetch_all_firewall_events fetch now zones).2 ≠ []) :
    eventFieldnames.length = 10 ∧
    ((∃ rec ∈ (fetch_all_firewall_events fetch now zones).2, ∃ kv ∈ rec,
        kv.1 ∉ eventFieldnames) →
      fetch_and_save_events true fetch now zones = .error .valueError) ∧
    (∀ writable : Bool,
      (∃ rows, fetch_and_save_events writable fetch now zones =
          .ok (some rows)) ↔
        (writable = true ∧
          ∀ rec ∈ (fetch_all_firewall_events fetch now zones).2,
            ∀ kv ∈ rec, kv.1 ∈ eventFieldnames)) := by
  have hbad : (∃ rec ∈ (fetch_all_firewall_events fetch now zones).2,
      ∃ kv ∈ rec, kv.1 ∉ eventFieldnames) →
      fetch_and_save_events true fetch now zones = .error .valueError := by
    rintro ⟨rec, hrec, kv, hkv, hnot⟩
    rw [fetch_and_save_events, if_neg hz]
    dsimp only
    rw [if_neg he, save_events_to_csv, if_pos rfl,
      writeRows_error eventFieldnames _ rec kv hrec hkv hnot]
  refine ⟨rfl, hbad, ?_⟩
  intro writable
  constructor
  · rintro ⟨rows, hok⟩
    cases writable with
    | false =>
      rw [fetch_and_save_events, if_neg hz] at hok
      dsimp only at hok
      rw [if_neg he, save_events_to_csv,
        if_neg (by simp : ¬ (false = true))] at hok
      cases hok
    | true =>
      refine ⟨rfl, ?_⟩
      by_contra hsub
      push_neg at hsub
      obtain ⟨rec, hrec, kv, hkv, hnot⟩ := hsub
      rw [hbad ⟨rec, hrec, kv, hkv, hnot⟩] at hok
      cases hok
  · rintro ⟨hw, hkeys⟩
    subst hw
    refine ⟨eventFieldnames ::
      (fetch_all_firewall_events fetch now zones).2.map (fun rec =>
        eventFieldnames.map (fun f => ((rec.lookup f).getD ""))), ?_⟩
    rw [fetch_and_save_events, if_neg hz]
    dsimp only
    rw [if_neg he, save_events_to_csv, if_pos rfl,
      writeRows_ok eventFieldnames _ hkeys]

/-- Witness for C10: with one zone and a fetch whose records carry the
undeclared key "bad", the job aborts with the propagated `ValueError`;
with records staying inside the declared fields, it succeeds. -/
theorem claim_C10_extra_key_raises_witness :
    fetch_and_save_events true fetchBadW 100 zonesW = .error .valueError ∧
    (∃ rows, fetch_and_save_events true fetchGoodW 100 zonesW =
      .ok (some rows)) := by
  constructor
  · exact (claim_C10_extra_key_raises fetchBadW 100 zonesW (by decide)
      (by decide)).2.1 (by decide)
  · exact ((claim_C10_extra_key_raises fetchGoodW 100 zonesW (by decide)
      (by decide)).2.2 true).mpr ⟨rfl, by decide⟩
